import Mathlib

/-!
Shallow embedding of the retrieval-augmented-generation pipeline
(app/retrieval/vectorstore.py, app/retrieval/retriever.py,
app/api/ingest.py, app/api/query.py, app/ingestion/loader.py,
app/ingestion/splitter.py) together with theorems settling the
frozen claims about it.

Python values are modelled with explicit dynamic typing where the
code depends on it (the `source` variable of `Retriever.retrieve`
holds first a set, then a string); fallible code returns `Except`.
-/

set_option autoImplicit false

/-- Scalar metadata values stored in a Document metadata mapping
(strings such as source or file_type, integers such as page or
total_chunks). -/
inductive MetaVal where
  | str (s : String)
  | int (n : Int)
deriving DecidableEq, Repr

/-- Rendering of a metadata scalar inside a Python f-string. -/
def MetaVal.format : MetaVal → String
  | MetaVal.str s => s
  | MetaVal.int n => toString n

/-- A Python dict from string keys to scalar values, as an
association list with unique keys (insertion order kept). -/
abbrev Metadata := List (String × MetaVal)

/-- dict.get(k, dflt). -/
def metaGet (m : Metadata) (k : String) (dflt : MetaVal) : MetaVal :=
  match m.lookup k with
  | some v => v
  | none => dflt

/-- Whether the dict has the key (Python `k in m`). -/
def hasKey (m : Metadata) (k : String) : Bool :=
  m.any (fun kv => kv.1 == k)

/-- dict update `{**m, k: v}`: overriding keeps the original position,
a fresh key is appended. -/
def dictInsert (m : Metadata) (k : String) (v : MetaVal) : Metadata :=
  if hasKey m k then m.map (fun kv => if kv.1 == k then (k, v) else kv)
  else m ++ [(k, v)]

/-- langchain_core.documents.Document: page_content plus metadata. -/
structure Document where
  page_content : String
  metadata : Metadata
deriving DecidableEq, Repr

/-- The Python exceptions raised by the embedded code. -/
inductive PyErr where
  | valueError (msg : String)
  | attributeError (msg : String)
  | typeError (msg : String)
deriving DecidableEq, Repr

/-- Modelled from the spec: the k-nearest-neighbour search performed by
the external Chroma library over the open collection (the repository
only wraps it). The oracle maps the collection records, the query and
k to the ranked scored results; the spec fixes that a search over an
empty collection yields no results (fewer than k records: return all
available, an empty collection returns the empty sequence). -/
structure ChromaOracle where
  searchWithScore : List Document → String → Nat → List (Document × Rat)
  empty_search : ∀ q k, searchWithScore [] q k = []

/-- Chroma similarity_search: the same ranked documents as the scored
search, with the scores dropped (spec: retrieve_with_scores returns the
same ranked chunks as retrieve). -/
def chromaSearch (o : ChromaOracle) (recs : List Document) (q : String) (k : Nat) :
    List Document :=
  (o.searchWithScore recs q k).map Prod.fst

/-- A concrete executable oracle used for evaluating the embedding at
closed inputs: it ranks the first k records with distance 0. -/
def takeOracle : ChromaOracle where
  searchWithScore recs _q k := (recs.take k).map (fun d => (d, (0 : Rat)))
  empty_search := fun _ _ => by simp

/-- VectorStore (app/retrieval/vectorstore.py): the field `vectorstore`
is None before a collection was built or loaded, and otherwise an open
Chroma handle, modelled by the records of the open collection. -/
structure VectorStore where
  vectorstore : Option (List Document)
deriving DecidableEq, Repr

/-- VectorStore.similarity_search: raises ValueError when the store is
not initialised, otherwise delegates to the Chroma search. -/
def VectorStore.similarity_search (o : ChromaOracle) (self : VectorStore)
    (query : String) (k : Nat) : Except PyErr (List Document) :=
  match self.vectorstore with
  | none => Except.error (PyErr.valueError
      "Vector store is not initialized. Load or create a vector store first.")
  | some recs => Except.ok (chromaSearch o recs query k)

/-- VectorStore.similarity_search_with_score: raises ValueError when the
store is not initialised, otherwise returns the scored Chroma results. -/
def VectorStore.similarity_search_with_score (o : ChromaOracle) (self : VectorStore)
    (query : String) (k : Nat) : Except PyErr (List (Document × Rat)) :=
  match self.vectorstore with
  | none => Except.error (PyErr.valueError
      "Vector store is not initialized. Load or create a vector store first.")
  | some recs => Except.ok (o.searchWithScore recs query k)

/-- VectorStore.add_documents: raises ValueError when the store is not
initialised; otherwise Chroma appends the new records to the open
collection (modelled from the spec: add appends to an already-open
Collection). The new store state is returned. -/
def VectorStore.add_documents (self : VectorStore) (documents : List Document) :
    Except PyErr VectorStore :=
  match self.vectorstore with
  | none => Except.error (PyErr.valueError
      "Vector store is not initialized. Load or create a vector store first.")
  | some recs => Except.ok ⟨some (recs ++ documents)⟩

/-- Environment of VectorStore.load_existing: whether the persist
directory exists, whether the Chroma constructor or the count call
raises, and the records persisted in the rag_collection collection. -/
structure DiskEnv where
  dirExists : Bool
  openRaises : Bool
  countRaises : Bool
  records : List Document
deriving DecidableEq, Repr

/-- The body of the try block of load_existing, before the catch-all
except clause: checks the directory, opens the Chroma handle (which
assigns self.vectorstore before count is called) and tests the record
count. Returns the outcome together with the store state reached. -/
def loadBody (env : DiskEnv) (st : VectorStore) : Except PyErr Bool × VectorStore :=
  if env.dirExists = false then (Except.ok false, st)
  else if env.openRaises then
    (Except.error (PyErr.valueError "Could not connect to tenant"), st)
  else
    let st2 : VectorStore := ⟨some env.records⟩
    if env.countRaises then
      (Except.error (PyErr.valueError "Collection count failed"), st2)
    else if env.records.length = 0 then (Except.ok false, st2)
    else (Except.ok true, st2)

/-- VectorStore.load_existing: the try body wrapped in the catch-all
except clause that prints the error and returns False. -/
def load_existing (env : DiskEnv) (st : VectorStore) : Bool × VectorStore :=
  match loadBody env st with
  | (Except.ok b, st2) => (b, st2)
  | (Except.error _, st2) => (false, st2)

/-- Retriever (app/retrieval/retriever.py) wraps a VectorStore. -/
structure Retriever where
  vectorstore : VectorStore
deriving DecidableEq, Repr

/-- The dynamically-typed local variable `source` of Retriever.retrieve:
it is bound to set() before the loop and rebound to a metadata scalar
inside the loop. -/
inductive LoopVar where
  | pyset (elems : List MetaVal)
  | scalar (v : MetaVal)
deriving DecidableEq, Repr

/-- Python attribute call `x.add(v)`: defined on a set (idempotent
insertion), an AttributeError on a str or an int. -/
def LoopVar.add : LoopVar → MetaVal → Except PyErr LoopVar
  | LoopVar.pyset es, v =>
      Except.ok (LoopVar.pyset (if v ∈ es then es else es ++ [v]))
  | LoopVar.scalar (MetaVal.str _), _ =>
      Except.error (PyErr.attributeError "str object has no attribute add")
  | LoopVar.scalar (MetaVal.int _), _ =>
      Except.error (PyErr.attributeError "int object has no attribute add")

/-- Python `list(x)`: a set gives its elements, a str gives its
characters, an int is not iterable. -/
def LoopVar.toPyList : LoopVar → Except PyErr (List MetaVal)
  | LoopVar.pyset es => Except.ok es
  | LoopVar.scalar (MetaVal.str s) =>
      Except.ok (s.data.map (fun c => MetaVal.str (String.singleton c)))
  | LoopVar.scalar (MetaVal.int _) =>
      Except.error (PyErr.typeError "int object is not iterable")

/-- One labelled context block of Retriever.retrieve, as the two
adjacent f-strings passed to context_parts.append build it. -/
def contextBlock (source page chunk_id : MetaVal) (content : String) : String :=
  "[" ++ source.format ++ " - Pág." ++ page.format ++ " - Chunk "
    ++ chunk_id.format ++ "]\n" ++ content ++ "\n"

/-- The for loop of Retriever.retrieve over the search results: in each
iteration the variable `source` is REBOUND to the scalar metadata value
and then `.add` is called on it. Threads context_parts and the loop
variable; propagates the exception the loop raises. -/
def retrieveLoop (results : List Document) (parts : List String) (sourceVar : LoopVar) :
    Except PyErr (List String × LoopVar) :=
  match results with
  | [] => Except.ok (parts, sourceVar)
  | doc :: rest =>
      let source := metaGet doc.metadata "source" (MetaVal.str "unknown source")
      let page := metaGet doc.metadata "page" (MetaVal.str "unknown page")
      let chunk_id := metaGet doc.metadata "chunk_id" (MetaVal.str "unknown id")
      match LoopVar.add (LoopVar.scalar source) source with
      | Except.error e => Except.error e
      | Except.ok sourceVar2 =>
          retrieveLoop rest (parts ++ [contextBlock source page chunk_id doc.page_content])
            sourceVar2

/-- The dict returned by Retriever.retrieve. -/
structure RetrievalResult where
  chunks : List Document
  context : String
  sources : List MetaVal
deriving DecidableEq, Repr

/-- Retriever.retrieve: similarity search, early return of the empty
result on no results, otherwise the context-building loop followed by
list(source). -/
def Retriever.retrieve (o : ChromaOracle) (self : Retriever) (query : String)
    (top_k : Nat) : Except PyErr RetrievalResult :=
  match VectorStore.similarity_search o self.vectorstore query top_k with
  | Except.error e => Except.error e
  | Except.ok results =>
      if results.isEmpty then Except.ok ⟨[], "", []⟩
      else
        match retrieveLoop results [] (LoopVar.pyset []) with
        | Except.error e => Except.error e
        | Except.ok (parts, sourceVar) =>
            match sourceVar.toPyList with
            | Except.error e => Except.error e
            | Except.ok src =>
                Except.ok ⟨results, String.intercalate "\n---\n" parts, src⟩

/-- One element of the list returned by Retriever.retrieve_with_scores. -/
structure ScoredResult where
  document : Document
  score : Rat
  metadata : Metadata
  preview : String
deriving DecidableEq, Repr

/-- Retriever.retrieve_with_scores: scored similarity search, each
result formatted with its raw score, its metadata and the preview
page_content[:200] + "...". -/
def Retriever.retrieve_with_scores (o : ChromaOracle) (self : Retriever)
    (query : String) (top_k : Nat) : Except PyErr (List ScoredResult) :=
  match VectorStore.similarity_search_with_score o self.vectorstore query top_k with
  | Except.error e => Except.error e
  | Except.ok results =>
      Except.ok (results.map (fun ds =>
        ⟨ds.1, ds.2, ds.1.metadata, ds.1.page_content.take 200 ++ "..."⟩))

/-- A concrete ingested chunk used to evaluate the embedding. -/
def docA : Document :=
  ⟨"hello world",
   [("source", MetaVal.str "a.pdf"), ("file_type", MetaVal.str ".pdf"),
    ("page", MetaVal.int 1), ("chuink_id", MetaVal.int 0),
    ("total_chunks", MetaVal.int 1)]⟩

/-- A second concrete ingested chunk. -/
def docB : Document :=
  ⟨"second chunk",
   [("source", MetaVal.str "b.pdf"), ("file_type", MetaVal.str ".pdf"),
    ("page", MetaVal.int 2), ("chuink_id", MetaVal.int 1),
    ("total_chunks", MetaVal.int 2)]⟩

/-- Modelled from the spec: the repository delegates the actual text
splitting to the external langchain RecursiveCharacterTextSplitter
(app/ingestion/splitter.py only forwards chunk_size, chunk_overlap and
the separator list), so the algorithm is not part of src/. Recursive
phase of the spec 4.1 algorithm: split on the first separator of the
priority list; a piece at most chunk_size characters long is kept, a
longer piece is recursively split on the next separator; the empty
separator splits into single characters (hard character split as the
last resort). -/
def recursiveSplit (chunkSize : Nat) : List String → String → List String
  | [], text => [text]
  | sep :: rest, text =>
      ((if sep.isEmpty then text.data.map (fun c => String.singleton c)
        else text.splitOn sep).map
        (fun p => if p.length ≤ chunkSize then [p]
          else recursiveSplit chunkSize rest p)).flatten

/-- Modelled from the spec: greedy re-merge of the split pieces into
chunks of at most chunk_size characters; each chunk after the first
starts with approximately `overlap` characters taken from the end of
the previous chunk; exactly empty chunks are dropped (the spec keeps
whitespace-only output but an empty input produces an empty sequence). -/
def mergeCore (chunkSize overlap : Nat) : List String → String → List String
  | [], acc => if acc.isEmpty then [] else [acc]
  | p :: rest, acc =>
      if acc.isEmpty then mergeCore chunkSize overlap rest p
      else if acc.length + p.length ≤ chunkSize then
        mergeCore chunkSize overlap rest (acc ++ p)
      else acc :: mergeCore chunkSize overlap rest
        (acc.drop (acc.length - overlap) ++ p)

/-- Modelled from the spec: TextSplitter.split_text with the separator
priority list of splitter.py. Spec 4.1 edge cases: empty input produces
an empty sequence; input shorter than chunk_size produces exactly one
chunk equal to the input (whitespace-only input included, it is not
filtered out); longer input goes through recursive splitting and
overlap merging. -/
def split_text (chunkSize overlap : Nat) (text : String) : List String :=
  if text.isEmpty then []
  else if text.length < chunkSize then [text]
  else mergeCore chunkSize overlap
    (recursiveSplit chunkSize ["\n\n", "\n", " ", ""] text) ""

/-- DocumentLoader.load_file metadata enrichment (loader.py): sets
source to the file name and file_type to the extension, and defaults
page to 0 when the parser supplied none. -/
def loaderMetadata (fileName ext : String) (m : Metadata) : Metadata :=
  let m1 := dictInsert m "source" (MetaVal.str fileName)
  let m2 := dictInsert m1 "file_type" (MetaVal.str ext)
  if hasKey m2 "page" then m2 else dictInsert m2 "page" (MetaVal.int 0)

/-- PASO 3 of ingest_documents (app/api/ingest.py): split the text of a
loaded document and wrap every chunk in a Document whose metadata is
the parent metadata spread together with the per-chunk fields; the
chunk position is stored under the key the source literally writes. -/
def ingestChunks (splitter : String → List String) (doc : Document) : List Document :=
  let text_chunks := splitter doc.page_content
  text_chunks.enum.map (fun ic =>
    ⟨ic.2,
     dictInsert (dictInsert doc.metadata "chuink_id" (MetaVal.int (Int.ofNat ic.1)))
       "total_chunks" (MetaVal.int (Int.ofNat text_chunks.length))⟩)

/-- The raw content of the language-model response in query_rag: either
already a plain string or some other value rendered by str(). -/
inductive RawContent where
  | str (s : String)
  | other (rendered : String)
deriving DecidableEq, Repr

/-- The coercion `if not isinstance(answer, str): answer = str(answer)`. -/
def pyStrCoerce : RawContent → String
  | RawContent.str s => s
  | RawContent.other r => r

/-- models/schemas.py SourceInfo. -/
structure SourceInfo where
  filename : MetaVal
  chunk_id : MetaVal
  content_preview : String
deriving DecidableEq, Repr

/-- models/schemas.py QueryResponse. -/
structure QueryResponse where
  answer : String
  source : List SourceInfo
  chunk_used : Nat
deriving DecidableEq, Repr

/-- PASO 4 of query_rag (app/api/query.py): coerce the raw answer to a
string, map every retrieved chunk in order to a SourceInfo with the
source file name, the chunk_id metadata value (default 0) and the
preview page_content[:150] + "...", and report the chunk count. -/
def format_response (rawAnswer : RawContent) (chunks : List Document) : QueryResponse :=
  ⟨pyStrCoerce rawAnswer,
   chunks.map (fun chunk =>
     ⟨metaGet chunk.metadata "source" (MetaVal.str "desconocido"),
      metaGet chunk.metadata "chunk_id" (MetaVal.int 0),
      chunk.page_content.take 150 ++ "..."⟩),
   chunks.length⟩

/-- C1: the claim states that for every query whose similarity search
returns a non-empty result list, Retriever.retrieve returns a result
whose sources field is the set of distinct source metadata values. The
code instead raises: the loop variable `source` is rebound from the
set to the string metadata value and `source.add(source)` is then an
AttributeError on the very first iteration, so retrieve never returns
on a non-empty result list. Evaluated here at a one-chunk collection. -/
theorem C1_retrieve_raises_attribute_error :
    Retriever.retrieve takeOracle ⟨⟨some [docA]⟩⟩ "q" 3 =
      Except.error (PyErr.attributeError "str object has no attribute add") := rfl

/-- C2 counterexample: the claim states that retrieve returns the empty
result rather than raising whenever no collection was successfully
built or loaded. When no collection is open (the store field is still
None), similarity_search raises ValueError and retrieve propagates it. -/
theorem C2_counterexample_missing_collection_raises :
    Retriever.retrieve takeOracle ⟨⟨none⟩⟩ "q" 5 =
      Except.error (PyErr.valueError
        "Vector store is not initialized. Load or create a vector store first.") := rfl

/-- C2 amended: retrieve returns chunks = [], context = "", sources = []
when a collection handle is open but holds no records (the search then
finds nothing); when no collection was built or loaded at all, retrieve
instead propagates the not-initialised ValueError. -/
theorem C2_empty_collection_returns_empty_result (o : ChromaOracle) (q : String)
    (k : Nat) :
    Retriever.retrieve o ⟨⟨some []⟩⟩ q k = Except.ok ⟨[], "", []⟩ ∧
    Retriever.retrieve o ⟨⟨none⟩⟩ q k = Except.error (PyErr.valueError
      "Vector store is not initialized. Load or create a vector store first.") := by
  constructor
  · simp [Retriever.retrieve, VectorStore.similarity_search, chromaSearch,
      o.empty_search]
  · rfl

/-- C3: the claim states that each retrieved chunk is rendered in the
returned context string as a labelled block joined in ranked order. For
every non-empty result list retrieve raises AttributeError before any
block is appended (and the unreachable formatter would label blocks
with Pág. and the chunk_id metadata key, not Page and chunk_index), so
no context string is ever returned. Evaluated at a two-chunk ranking. -/
theorem C3_retrieve_returns_no_context_blocks :
    Retriever.retrieve takeOracle ⟨⟨some [docA, docB]⟩⟩ "q" 2 =
      Except.error (PyErr.attributeError "str object has no attribute add") := rfl

/-- C4: the claim states that every ingested chunk carries metadata
including the key chunk_index. The ingestion pipeline stores the chunk
position under the misspelled key chuink_id instead, and the readers
(query_rag and retrieve) look up chunk_id, which is never present
either; total_chunks and the parent metadata are carried as claimed.
Evaluated at a one-chunk .txt document. -/
theorem C4_chunk_index_key_misspelled :
    (ingestChunks (fun t => [t]) ⟨"hello", loaderMetadata "a.txt" ".txt" []⟩).map
      (fun c => (c.metadata.lookup "chunk_index", c.metadata.lookup "chunk_id",
        c.metadata.lookup "chuink_id", c.metadata.lookup "total_chunks")) =
      [(none, none, some (MetaVal.int 0), some (MetaVal.int 1))] := by decide

/-- C5: splitter edge cases of the spec: empty input produces an empty
sequence, any non-empty input shorter than chunk_size produces exactly
one chunk equal to the input, and a whitespace-only input therefore
produces a single whitespace chunk, not filtered out. -/
theorem C5_split_text_edge_cases (chunkSize overlap : Nat) :
    split_text chunkSize overlap "" = [] ∧
    (∀ t : String, t.isEmpty = false → t.length < chunkSize →
      split_text chunkSize overlap t = [t]) ∧
    (∀ t : String, t.isEmpty = false → t.length < chunkSize →
      t.data.all (fun c => c == ' ') = true → split_text chunkSize overlap t = [t]) := by
  refine ⟨rfl, fun t h1 h2 => ?_, fun t h1 h2 _ => ?_⟩ <;>
    simp [split_text, h1, h2]

/-- C5 witness: the edge cases evaluated at the configured defaults
chunk_size = 800 and chunk_overlap = 150. -/
theorem C5_split_text_edge_cases_witness :
    split_text 800 150 "" = [] ∧ split_text 800 150 "hola" = ["hola"] ∧
    split_text 800 150 "   " = ["   "] :=
  ⟨(C5_split_text_edge_cases 800 150).1,
   (C5_split_text_edge_cases 800 150).2.1 "hola" (by decide) (by decide),
   (C5_split_text_edge_cases 800 150).2.2 "   " (by decide) (by decide) (by decide)⟩

set_option maxRecDepth 8000 in
/-- C6 counterexample: the claim states that retrieve_with_scores
returns the same chunks as retrieve for the same query and top_k. On a
one-record collection retrieve raises AttributeError while
retrieve_with_scores returns the ranked record, so the outputs differ
(and the preview is the 200-character prefix with "..." appended). -/
theorem C6_counterexample_retrieve_errors_but_scores_return :
    Retriever.retrieve takeOracle ⟨⟨some [docB]⟩⟩ "qq" 1 =
      Except.error (PyErr.attributeError "str object has no attribute add") ∧
    Retriever.retrieve_with_scores takeOracle ⟨⟨some [docB]⟩⟩ "qq" 1 =
      Except.ok [⟨docB, 0, docB.metadata, "second chunk..."⟩] := by
  exact ⟨rfl, rfl⟩

/-- C6 amended: retrieve_with_scores returns exactly the documents of
the underlying scored similarity search, in the same ranked order that
retrieve consumes (the list its chunks field would hold), preserving
every raw distance and attaching the preview page_content[:200] ++
"..."; retrieve itself raises on every non-empty result list, so the
comparison is with the shared underlying ranking. -/
theorem C6_with_scores_preserves_search_order (o : ChromaOracle)
    (recs : List Document) (q : String) (k : Nat) :
    ∃ rs, Retriever.retrieve_with_scores o ⟨⟨some recs⟩⟩ q k = Except.ok rs ∧
      rs.map ScoredResult.document = chromaSearch o recs q k ∧
      rs.map (fun r => (r.document, r.score)) = o.searchWithScore recs q k ∧
      rs.map ScoredResult.preview =
        (chromaSearch o recs q k).map (fun d => d.page_content.take 200 ++ "...") := by
  have he : Retriever.retrieve_with_scores o ⟨⟨some recs⟩⟩ q k =
      Except.ok ((o.searchWithScore recs q k).map
        (fun ds => ScoredResult.mk ds.1 ds.2 ds.1.metadata
          (ds.1.page_content.take 200 ++ "..."))) := rfl
  refine ⟨_, he, ?_, ?_, ?_⟩
  · simp only [chromaSearch, List.map_map]
    rfl
  · simp only [List.map_map]
    exact List.map_id' _
  · simp only [chromaSearch, List.map_map]
    rfl

/-- C6 witness: the amended statement evaluated at a concrete oracle,
collection, query and k. -/
theorem C6_with_scores_preserves_search_order_witness :
    ∃ rs, Retriever.retrieve_with_scores takeOracle ⟨⟨some [docA]⟩⟩ "q" 1 =
        Except.ok rs ∧
      rs.map ScoredResult.document = chromaSearch takeOracle [docA] "q" 1 ∧
      rs.map (fun r => (r.document, r.score)) =
        takeOracle.searchWithScore [docA] "q" 1 ∧
      rs.map ScoredResult.preview =
        (chromaSearch takeOracle [docA] "q" 1).map
          (fun d => d.page_content.take 200 ++ "...") :=
  C6_with_scores_preserves_search_order takeOracle [docA] "q" 1

/-- C7: add_documents before any successful build or load (store field
still None) fails with the not-initialised ValueError, and on an open
collection it appends the given records after the existing ones,
replacing nothing. -/
theorem C7_add_documents_requires_open_collection (self : VectorStore)
    (docs : List Document) :
    (self.vectorstore = none →
      VectorStore.add_documents self docs = Except.error (PyErr.valueError
        "Vector store is not initialized. Load or create a vector store first.")) ∧
    (∀ recs, self.vectorstore = some recs →
      VectorStore.add_documents self docs = Except.ok ⟨some (recs ++ docs)⟩) := by
  obtain ⟨v⟩ := self
  cases v with
  | none =>
      constructor
      · intro _
        rfl
      · intro recs h
        cases h
  | some recs0 =>
      constructor
      · intro h
        cases h
      · intro recs h
        cases h
        rfl

/-- C7 witness: appending one record to an open one-record collection. -/
theorem C7_add_documents_requires_open_collection_witness :
    VectorStore.add_documents ⟨some [docA]⟩ [docB] = Except.ok ⟨some [docA, docB]⟩ :=
  (C7_add_documents_requires_open_collection ⟨some [docA]⟩ [docB]).2 [docA] rfl

/-- C8: load_existing returns False (not an exception) both when no
persisted collection exists at the configured location and when the
collection exists but holds zero records; it returns True exactly when
the directory exists, nothing raises and at least one record is
present, and then the opened collection holds those records. -/
theorem C8_load_existing_not_found_semantics (env : DiskEnv) (st : VectorStore) :
    (env.dirExists = false → (load_existing env st).1 = false) ∧
    (env.records.length = 0 → (load_existing env st).1 = false) ∧
    ((load_existing env st).1 = true ↔
      env.dirExists = true ∧ env.openRaises = false ∧ env.countRaises = false ∧
        0 < env.records.length) ∧
    ((load_existing env st).1 = true →
      (load_existing env st).2 = ⟨some env.records⟩) := by
  obtain ⟨de, orr, cr, recs⟩ := env
  by_cases h : recs.length = 0 <;>
    cases de <;> cases orr <;> cases cr <;>
      simp_all [load_existing, loadBody, List.length_pos]

/-- C8 witness: a missing directory and an empty persisted collection
both report False, one record reports True. -/
theorem C8_load_existing_not_found_semantics_witness :
    (load_existing ⟨false, false, false, [docA]⟩ ⟨none⟩).1 = false ∧
    (load_existing ⟨true, false, false, []⟩ ⟨none⟩).1 = false ∧
    (load_existing ⟨true, false, false, [docA]⟩ ⟨none⟩).1 = true :=
  ⟨(C8_load_existing_not_found_semantics ⟨false, false, false, [docA]⟩ ⟨none⟩).1 rfl,
   (C8_load_existing_not_found_semantics ⟨true, false, false, []⟩ ⟨none⟩).2.1 rfl,
   (C8_load_existing_not_found_semantics ⟨true, false, false, [docA]⟩
      ⟨none⟩).2.2.1.mpr ⟨rfl, rfl, rfl, by decide⟩⟩

/-- C9: format_response coerces the raw answer to a plain string and
otherwise passes it through unchanged, and maps each retrieved chunk,
preserving order, to a SourceInfo holding the source file name, the
chunk_id metadata value (default 0) and the preview page_content[:150]
with the "..." truncation marker appended. -/
theorem C9_format_response_mapping (s r : String) (chunks : List Document) :
    (format_response (RawContent.str s) chunks).answer = s ∧
    (format_response (RawContent.other r) chunks).answer = r ∧
    (format_response (RawContent.str s) chunks).chunk_used = chunks.length ∧
    ∀ i : Nat, (format_response (RawContent.str s) chunks).source[i]? =
      (chunks[i]?).map (fun c =>
        ⟨metaGet c.metadata "source" (MetaVal.str "desconocido"),
         metaGet c.metadata "chunk_id" (MetaVal.int 0),
         c.page_content.take 150 ++ "..."⟩) := by
  refine ⟨rfl, rfl, rfl, fun i => ?_⟩
  simp [format_response, List.getElem?_map]

/-- C10: the whole body of load_existing runs inside a catch-all except
clause: every internal failure of the body is mapped to the False
result with the state reached, and every normal outcome is passed
through, so load_existing always returns a boolean and never
propagates an exception. -/
theorem C10_load_existing_catches_all_errors (env : DiskEnv) (st : VectorStore) :
    (∀ e st2, loadBody env st = (Except.error e, st2) →
      load_existing env st = (false, st2)) ∧
    (∀ b st2, loadBody env st = (Except.ok b, st2) →
      load_existing env st = (b, st2)) := by
  constructor
  · intro e st2 h
    simp [load_existing, h]
  · intro b st2 h
    simp [load_existing, h]

/-- C10 witness: a failure of the record count call (after the handle
was already assigned) is caught and reported as False. -/
theorem C10_load_existing_catches_all_errors_witness :
    load_existing ⟨true, false, true, [docA]⟩ ⟨none⟩ = (false, ⟨some [docA]⟩) :=
  (C10_load_existing_catches_all_errors ⟨true, false, true, [docA]⟩ ⟨none⟩).1
    (PyErr.valueError "Collection count failed") ⟨some [docA]⟩ rfl
